import Mathlib

/-!
Shallow embedding of the `ophelia` crypto abstraction layer:
the generic crypto contract (`src/cc/src/lib.rs`) and the secp256k1
scheme adapter (`src/cc-secp256k1/src/lib.rs`).

Bytes are modelled as `List Nat` (the adapter never computes on byte
values, it only moves slices around and compares lengths).

The elliptic-curve backend (the external `secp256k1` crate) is an
external collaborator of this repository (spec §1, §6): it is not part
of the source.  We therefore parameterize the embedding over a
`Secp256k1Backend` structure holding the backend entry points the
adapter calls, and state the backend facts that each theorem needs as
explicit named contracts (`Prop`-valued definitions below), each a
transcription of the documented behaviour of the corresponding
`secp256k1` crate function.  A small executable `modelBackend`
satisfying all the contracts serves to evaluate the theorems on
concrete inputs.
-/

set_option autoImplicit false

namespace Ophelia

/-- `secp256k1::Error`, the backend's closed error enumeration
(the eight variants matched in `From<Secp256k1Error> for CryptoError`,
`src/cc-secp256k1/src/lib.rs` lines 142-157). -/
inductive Secp256k1ErrorKind where
  | IncorrectSignature
  | InvalidMessage
  | InvalidPublicKey
  | InvalidSignature
  | InvalidSecretKey
  | InvalidRecoveryId
  | InvalidTweak
  | NotEnoughMemory
  deriving DecidableEq, Repr

/-- `pub struct Secp256k1Error(secp256k1::Error)` — the adapter's newtype
around the backend error (`src/cc-secp256k1/src/lib.rs` line 17). -/
structure Secp256k1Error where
  err : Secp256k1ErrorKind
  deriving DecidableEq, Repr

/-- `cc::CryptoError` (`src/cc/src/lib.rs` lines 8-15).  The Rust
`Other(&'static str)` payload is modelled as a `String`. -/
inductive CryptoError where
  | InvalidLength
  | InvalidSignature
  | InvalidPublicKey
  | InvalidPrivateKey
  | Other (reason : String)
  deriving DecidableEq, Repr

/-- `impl From<Secp256k1Error> for CryptoError`
(`src/cc-secp256k1/src/lib.rs` lines 142-157), an exhaustive match on the
eight backend variants. -/
def CryptoError.fromSecp256k1 (e : Secp256k1Error) : CryptoError :=
  match e.err with
  | .IncorrectSignature => CryptoError.InvalidSignature
  | .InvalidMessage => CryptoError.InvalidLength
  | .InvalidPublicKey => CryptoError.InvalidPublicKey
  | .InvalidSignature => CryptoError.InvalidSignature
  | .InvalidSecretKey => CryptoError.InvalidPrivateKey
  | .InvalidRecoveryId => CryptoError.InvalidSignature
  | .InvalidTweak => CryptoError.Other "secp256k1: bad tweak"
  | .NotEnoughMemory => CryptoError.Other "secp256k1: not enough memory"

/-- The backend entry points used by the adapter, as a parameter
structure.  Fields correspond one-to-one to the `secp256k1` crate calls
in `src/cc-secp256k1/src/lib.rs`:
`SecretKey::from_slice`, `PublicKey::from_slice`,
`Signature::from_compact`, `ENGINE.sign`, `ENGINE.verify`,
`PublicKey::from_secret_key`, the secret key's byte indexing (`&key[..]`),
`PublicKey::serialize`, `Signature::serialize_compact`, and
`ENGINE.generate_keypair`.  Messages are the 32 raw bytes carried by
`secp256k1::Message` (built by `Message::from(HashedMessage(..))`, a
direct byte copy via `ThirtyTwoByteHash::into_32`). -/
structure Secp256k1Backend where
  SecretKey : Type
  PublicKeyT : Type
  SignatureT : Type
  Rng : Type
  secretKeyFromSlice : List Nat → Except Secp256k1ErrorKind SecretKey
  publicKeyFromSlice : List Nat → Except Secp256k1ErrorKind PublicKeyT
  signatureFromCompact : List Nat → Except Secp256k1ErrorKind SignatureT
  sign : List Nat → SecretKey → SignatureT
  verify : List Nat → SignatureT → PublicKeyT → Except Secp256k1ErrorKind Unit
  publicKeyFromSecretKey : SecretKey → PublicKeyT
  secretKeyBytes : SecretKey → List Nat
  publicKeySerialize : PublicKeyT → List Nat
  signatureSerializeCompact : SignatureT → List Nat
  generateKeypair : Rng → SecretKey × PublicKeyT

/-- Modelled from the spec: `HashValue` lives in `src/cc/src/hash.rs`,
which is declared by `pub mod hash;` in `src/cc/src/lib.rs` but absent
from the sources.  Per spec §3 it is "an opaque 32-byte digest …
Invariant: always exactly 32 bytes". -/
structure HashValue where
  bytes : List Nat
  len_eq : bytes.length = 32

/-- Modelled from the spec: `HashValue`'s fallible fixed-length
construction, "fails with InvalidLength if not exactly 32 bytes"
(spec §3, §6). -/
def HashValue.tryFrom (b : List Nat) : Except CryptoError HashValue :=
  if h : b.length = 32 then Except.ok ⟨b, h⟩ else Except.error CryptoError.InvalidLength

/-- Modelled from the spec: `HashValue` byte serialization (spec §6).
`HashedMessage::to_bytes` (`src/cc-secp256k1/src/lib.rs`) forwards to it. -/
def HashValue.to_bytes (h : HashValue) : List Nat := h.bytes

/-- `Message::from(HashedMessage(msg))`: the digest's 32 bytes copied
verbatim into the backend's message representation
(`ThirtyTwoByteHash::into_32` = `HashedMessage::to_bytes`,
`src/cc-secp256k1/src/lib.rs` lines 161-173). -/
def messageFrom (h : HashValue) : List Nat := h.to_bytes

/-- `pub struct Secp256k1PrivateKey(secp256k1::SecretKey)`. -/
structure Secp256k1PrivateKey (B : Secp256k1Backend) where
  key : B.SecretKey

/-- `pub struct Secp256k1PublicKey(secp256k1::PublicKey)`. -/
structure Secp256k1PublicKey (B : Secp256k1Backend) where
  key : B.PublicKeyT

/-- `pub struct Secp256k1Signature(secp256k1::Signature)`. -/
structure Secp256k1Signature (B : Secp256k1Backend) where
  sig : B.SignatureT

/-- `impl TryFrom<&[u8]> for Secp256k1PrivateKey`
(`src/cc-secp256k1/src/lib.rs` lines 39-47):
`SecretKey::from_slice(bytes).map_err(Secp256k1Error)?`, the `?`
converting through `From<Secp256k1Error> for CryptoError`. -/
def Secp256k1PrivateKey.try_from (B : Secp256k1Backend) (bytes : List Nat) :
    Except CryptoError (Secp256k1PrivateKey B) :=
  match B.secretKeyFromSlice bytes with
  | Except.error e => Except.error (CryptoError.fromSecp256k1 ⟨e⟩)
  | Except.ok secret_key => Except.ok ⟨secret_key⟩

/-- `Secp256k1PrivateKey::sign_message` (lines 53-58): builds the backend
message from the digest and calls `ENGINE.sign`; no fallible step. -/
def Secp256k1PrivateKey.sign_message {B : Secp256k1Backend}
    (k : Secp256k1PrivateKey B) (msg : HashValue) : Secp256k1Signature B :=
  ⟨B.sign (messageFrom msg) k.key⟩

/-- `Secp256k1PrivateKey::pub_key` (lines 60-64):
`PublicKey::from_secret_key(&ENGINE, &self.0)`. -/
def Secp256k1PrivateKey.pub_key {B : Secp256k1Backend}
    (k : Secp256k1PrivateKey B) : Secp256k1PublicKey B :=
  ⟨B.publicKeyFromSecretKey k.key⟩

/-- `Secp256k1PrivateKey::to_bytes` (lines 66-71): copies `self.0[..]`
into a 32-byte array. -/
def Secp256k1PrivateKey.to_bytes {B : Secp256k1Backend}
    (k : Secp256k1PrivateKey B) : List Nat :=
  B.secretKeyBytes k.key

/-- `impl TryFrom<&[u8]> for Secp256k1PublicKey` (lines 78-86):
`PublicKey::from_slice(bytes).map_err(Secp256k1Error)?`. -/
def Secp256k1PublicKey.try_from (B : Secp256k1Backend) (bytes : List Nat) :
    Except CryptoError (Secp256k1PublicKey B) :=
  match B.publicKeyFromSlice bytes with
  | Except.error e => Except.error (CryptoError.fromSecp256k1 ⟨e⟩)
  | Except.ok pub_key => Except.ok ⟨pub_key⟩

/-- `Secp256k1PublicKey::verify_signature` (lines 91-99):
`ENGINE.verify(&msg, &sig.0, &self.0).map_err(Secp256k1Error)?; Ok(())`. -/
def Secp256k1PublicKey.verify_signature {B : Secp256k1Backend}
    (p : Secp256k1PublicKey B) (msg : HashValue) (sig : Secp256k1Signature B) :
    Except CryptoError Unit :=
  match B.verify (messageFrom msg) sig.sig p.key with
  | Except.error e => Except.error (CryptoError.fromSecp256k1 ⟨e⟩)
  | Except.ok _ => Except.ok ()

/-- `Secp256k1PublicKey::to_bytes` (lines 101-103): `self.0.serialize()`,
the 33-byte compressed encoding. -/
def Secp256k1PublicKey.to_bytes {B : Secp256k1Backend}
    (p : Secp256k1PublicKey B) : List Nat :=
  B.publicKeySerialize p.key

/-- `impl TryFrom<&[u8]> for Secp256k1Signature` (lines 110-118):
`Signature::from_compact(bytes).map_err(Secp256k1Error)?`. -/
def Secp256k1Signature.try_from (B : Secp256k1Backend) (bytes : List Nat) :
    Except CryptoError (Secp256k1Signature B) :=
  match B.signatureFromCompact bytes with
  | Except.error e => Except.error (CryptoError.fromSecp256k1 ⟨e⟩)
  | Except.ok sig => Except.ok ⟨sig⟩

/-- `Secp256k1Signature::verify` (lines 123-131):
`ENGINE.verify(&msg, &self.0, &pub_key.0).map_err(Secp256k1Error)?; Ok(())`. -/
def Secp256k1Signature.verify {B : Secp256k1Backend}
    (s : Secp256k1Signature B) (msg : HashValue) (pub_key : Secp256k1PublicKey B) :
    Except CryptoError Unit :=
  match B.verify (messageFrom msg) s.sig pub_key.key with
  | Except.error e => Except.error (CryptoError.fromSecp256k1 ⟨e⟩)
  | Except.ok _ => Except.ok ()

/-- `Secp256k1Signature::to_bytes` (lines 133-135):
`self.0.serialize_compact()`, the 64-byte compact encoding. -/
def Secp256k1Signature.to_bytes {B : Secp256k1Backend}
    (s : Secp256k1Signature B) : List Nat :=
  B.signatureSerializeCompact s.sig

/-- `generate_keypair` (`src/cc-secp256k1/src/lib.rs` lines 24-33):
`ENGINE.generate_keypair(rng)`, both halves wrapped. -/
def generate_keypair (B : Secp256k1Backend) (rng : B.Rng) :
    Secp256k1PrivateKey B × Secp256k1PublicKey B :=
  let p := B.generateKeypair rng
  (⟨p.1⟩, ⟨p.2⟩)

/-- `Crypto::pub_key` default method (`src/cc/src/lib.rs` lines 49-53),
instantiated at the secp256k1 scheme: parse the private key, then derive. -/
def Crypto.pub_key (B : Secp256k1Backend) (priv_key : List Nat) :
    Except CryptoError (Secp256k1PublicKey B) :=
  match Secp256k1PrivateKey.try_from B priv_key with
  | Except.error e => Except.error e
  | Except.ok k => Except.ok k.pub_key

/-- `Crypto::sign_message` default method (`src/cc/src/lib.rs` lines
55-60): parse the private key first, then the message digest, then sign. -/
def Crypto.sign_message (B : Secp256k1Backend) (msg priv_key : List Nat) :
    Except CryptoError (Secp256k1Signature B) :=
  match Secp256k1PrivateKey.try_from B priv_key with
  | Except.error e => Except.error e
  | Except.ok k =>
    match HashValue.tryFrom msg with
    | Except.error e => Except.error e
    | Except.ok m => Except.ok (k.sign_message m)

/-- `Crypto::verify_signature` default method (`src/cc/src/lib.rs` lines
62-69): parse the message, then the signature, then the public key, then
`sig.verify(&msg, &pub_key)?; Ok(())`. -/
def Crypto.verify_signature (B : Secp256k1Backend) (msg sig pub_key : List Nat) :
    Except CryptoError Unit :=
  match HashValue.tryFrom msg with
  | Except.error e => Except.error e
  | Except.ok m =>
    match Secp256k1Signature.try_from B sig with
    | Except.error e => Except.error e
    | Except.ok s =>
      match Secp256k1PublicKey.try_from B pub_key with
      | Except.error e => Except.error e
      | Except.ok p =>
        match s.verify m p with
        | Except.error e => Except.error e
        | Except.ok _ => Except.ok ()

/-!
### Backend contracts

Each contract transcribes documented behaviour of the corresponding
`secp256k1` crate entry point.  The theorems below take the contracts
they need as hypotheses.
-/

/-- `SecretKey::from_slice` only accepts 32-byte slices and stores the
bytes verbatim, so a parsed key reads back as the input slice. -/
def SecretKeyRoundTrip (B : Secp256k1Backend) : Prop :=
  ∀ (b : List Nat) (sk : B.SecretKey), b.length = 32 →
    B.secretKeyFromSlice b = Except.ok sk → B.secretKeyBytes sk = b

/-- `PublicKey::from_slice` on a 33-byte slice parses the compressed
encoding, which `serialize` reproduces canonically. -/
def PublicKeyRoundTrip (B : Secp256k1Backend) : Prop :=
  ∀ (b : List Nat) (pk : B.PublicKeyT), b.length = 33 →
    B.publicKeyFromSlice b = Except.ok pk → B.publicKeySerialize pk = b

/-- `Signature::from_compact` only accepts 64-byte slices and
`serialize_compact` reproduces the accepted bytes. -/
def SignatureRoundTrip (B : Secp256k1Backend) : Prop :=
  ∀ (b : List Nat) (s : B.SignatureT), b.length = 64 →
    B.signatureFromCompact b = Except.ok s → B.signatureSerializeCompact s = b

/-- `SecretKey::from_slice` rejects every slice whose length is not 32
with `Error::InvalidSecretKey`. -/
def SecretKeyLenGuard (B : Secp256k1Backend) : Prop :=
  ∀ b : List Nat, b.length ≠ 32 →
    B.secretKeyFromSlice b = Except.error Secp256k1ErrorKind.InvalidSecretKey

/-- `PublicKey::from_slice` rejects every slice whose length is neither
33 (compressed) nor 65 (uncompressed) with `Error::InvalidPublicKey`. -/
def PublicKeyLenGuard (B : Secp256k1Backend) : Prop :=
  ∀ b : List Nat, b.length ≠ 33 → b.length ≠ 65 →
    B.publicKeyFromSlice b = Except.error Secp256k1ErrorKind.InvalidPublicKey

/-- `Signature::from_compact` rejects every slice whose length is not 64
with `Error::InvalidSignature`. -/
def SignatureLenGuard (B : Secp256k1Backend) : Prop :=
  ∀ b : List Nat, b.length ≠ 64 →
    B.signatureFromCompact b = Except.error Secp256k1ErrorKind.InvalidSignature

/-- ECDSA correctness of the backend: a signature produced by
`ENGINE.sign` over a 32-byte message verifies under the public key
derived from the signing secret key. -/
def SignVerifyOk (B : Secp256k1Backend) : Prop :=
  ∀ (sk : B.SecretKey) (m : List Nat), m.length = 32 →
    B.verify m (B.sign m sk) (B.publicKeyFromSecretKey sk) = Except.ok ()

/-- `PublicKey::serialize` always returns the 33-byte compressed
encoding. -/
def PublicKeySerializeLen (B : Secp256k1Backend) : Prop :=
  ∀ pk : B.PublicKeyT, (B.publicKeySerialize pk).length = 33

/-- `ENGINE.generate_keypair` returns a bound pair: the public half is
derived from the secret half. -/
def KeypairBound (B : Secp256k1Backend) : Prop :=
  ∀ r : B.Rng, (B.generateKeypair r).2 = B.publicKeyFromSecretKey (B.generateKeypair r).1

/-- `PublicKey::from_slice` accepts some 65-byte (uncompressed-point)
slice. -/
def AcceptsUncompressed (B : Secp256k1Backend) : Prop :=
  ∃ (b : List Nat) (pk : B.PublicKeyT),
    b.length = 65 ∧ B.publicKeyFromSlice b = Except.ok pk

/-!
### Executable model backend

A small executable instance satisfying every contract above, used to
evaluate the theorems on concrete inputs.  Secret keys and signatures
store their accepted byte slices; a public "point" is its canonical
33-byte compressed form (tag byte 2, then a scalar, then zero padding);
the 65-byte uncompressed form carries tag byte 4 and the same scalar.
Signing binds the message bytes to the key's scalar.
-/

/-- Model public keys: canonical compressed encodings. -/
def ModelPubKey : Type := { l : List Nat // l.length = 33 ∧ l.headD 0 = 2 }

/-- The scalar a model secret key denotes. -/
def modelScal (sk : List Nat) : Nat := sk.foldl Nat.add 0

/-- Model `PublicKey::from_secret_key`. -/
def modelFromSecretKey (sk : List Nat) : ModelPubKey :=
  ⟨2 :: modelScal sk :: List.replicate 31 0, by simp⟩

/-- The secp256k1 base field prime `2^256 - 2^32 - 977`. -/
def secpFieldPrime : Nat := 2 ^ 256 - 2 ^ 32 - 977

/-- Big-endian byte-list decoding. -/
def beNat (l : List Nat) : Nat := l.foldl (fun acc d => acc * 256 + d) 0

/-- secp256k1 curve membership: both coordinates in field range and
`y^2 = x^3 + 7` over the base field. -/
def onCurve (x y : Nat) : Prop :=
  x < secpFieldPrime ∧ y < secpFieldPrime ∧
    y * y % secpFieldPrime = (x * x % secpFieldPrime * x + 7) % secpFieldPrime

instance onCurveDecidable (x y : Nat) : Decidable (onCurve x y) :=
  inferInstanceAs (Decidable (x < secpFieldPrime ∧ y < secpFieldPrime ∧
    y * y % secpFieldPrime = (x * x % secpFieldPrime * x + 7) % secpFieldPrime))

/-- The x coordinate of the secp256k1 generator point, big-endian bytes. -/
def genXBytes : List Nat :=
  [121, 190, 102, 126, 249, 220, 187, 172, 85, 160, 98, 149, 206, 135, 11, 7,
   2, 155, 252, 219, 45, 206, 40, 217, 89, 242, 129, 91, 22, 248, 23, 152]

/-- The y coordinate of the secp256k1 generator point, big-endian bytes. -/
def genYBytes : List Nat :=
  [72, 58, 218, 119, 38, 163, 196, 101, 93, 164, 251, 252, 14, 17, 8, 168,
   253, 23, 180, 72, 166, 133, 84, 25, 156, 71, 208, 143, 251, 16, 212, 184]

/-- The 65-byte uncompressed SEC1 encoding of the secp256k1 generator
point: tag byte 4, then x, then y. -/
def uncompressedGenerator : List Nat := 4 :: genXBytes ++ genYBytes

/-- Model `PublicKey::from_slice`: accepts canonical 33-byte compressed
encodings, and 65-byte uncompressed encodings whose coordinates lie on
the secp256k1 curve (off-curve 65-byte inputs are rejected, as the
backend rejects them). -/
def modelPublicKeyFromSlice (b : List Nat) : Except Secp256k1ErrorKind ModelPubKey :=
  if h : b.length = 33 ∧ b.headD 0 = 2 then Except.ok ⟨b, h⟩
  else if h2 : b.length = 65 ∧ b.headD 0 = 4 ∧
      onCurve (beNat ((b.drop 1).take 32)) (beNat (b.drop 33)) then
    Except.ok ⟨2 :: (b.drop 1).take 32, by
      refine ⟨?_, rfl⟩
      simp [h2.1]⟩
  else Except.error Secp256k1ErrorKind.InvalidPublicKey

/-- Model `ENGINE.sign`. -/
def modelSign (m sk : List Nat) : List Nat :=
  m.take 32 ++ List.replicate 31 0 ++ [modelScal sk]

/-- Model `ENGINE.verify`. -/
def modelVerify (m sig : List Nat) (pk : ModelPubKey) : Except Secp256k1ErrorKind Unit :=
  if sig = m.take 32 ++ List.replicate 31 0 ++ [pk.val.getD 1 0] then Except.ok ()
  else Except.error Secp256k1ErrorKind.IncorrectSignature

/-- The executable model backend. -/
def modelBackend : Secp256k1Backend where
  SecretKey := List Nat
  PublicKeyT := ModelPubKey
  SignatureT := List Nat
  Rng := Nat
  secretKeyFromSlice b :=
    if b.length = 32 then Except.ok b
    else Except.error Secp256k1ErrorKind.InvalidSecretKey
  publicKeyFromSlice := modelPublicKeyFromSlice
  signatureFromCompact b :=
    if b.length = 64 then Except.ok b
    else Except.error Secp256k1ErrorKind.InvalidSignature
  sign m sk := modelSign m sk
  verify := modelVerify
  publicKeyFromSecretKey := modelFromSecretKey
  secretKeyBytes sk := sk
  publicKeySerialize pk := pk.val
  signatureSerializeCompact s := s
  generateKeypair r :=
    (List.replicate 32 r, modelFromSecretKey (List.replicate 32 r))

/-!
### Spec-side error table (for comparison with the source's mapping)
-/

/-- The backend-error mapping table exactly as spec §4.2 writes it,
with the literal reasons `"bad tweak"` and `"not enough memory"`. -/
def specErrorTable (e : Secp256k1ErrorKind) : CryptoError :=
  match e with
  | .IncorrectSignature => CryptoError.InvalidSignature
  | .InvalidMessage => CryptoError.InvalidLength
  | .InvalidPublicKey => CryptoError.InvalidPublicKey
  | .InvalidSignature => CryptoError.InvalidSignature
  | .InvalidSecretKey => CryptoError.InvalidPrivateKey
  | .InvalidRecoveryId => CryptoError.InvalidSignature
  | .InvalidTweak => CryptoError.Other "bad tweak"
  | .NotEnoughMemory => CryptoError.Other "not enough memory"

/-- The spec table amended minimally: the two `Other` reasons carry the
source's `"secp256k1: "` prefix. -/
def specErrorTableAmended (e : Secp256k1ErrorKind) : CryptoError :=
  match e with
  | .IncorrectSignature => CryptoError.InvalidSignature
  | .InvalidMessage => CryptoError.InvalidLength
  | .InvalidPublicKey => CryptoError.InvalidPublicKey
  | .InvalidSignature => CryptoError.InvalidSignature
  | .InvalidSecretKey => CryptoError.InvalidPrivateKey
  | .InvalidRecoveryId => CryptoError.InvalidSignature
  | .InvalidTweak => CryptoError.Other "secp256k1: bad tweak"
  | .NotEnoughMemory => CryptoError.Other "secp256k1: not enough memory"

/-!
### The model backend satisfies every contract
-/

theorem modelSecretKeyRoundTrip : SecretKeyRoundTrip modelBackend := by
  intro b sk hlen hok
  replace hok : (if b.length = 32 then Except.ok b
      else Except.error Secp256k1ErrorKind.InvalidSecretKey) = Except.ok sk := hok
  rw [if_pos hlen] at hok
  cases hok
  rfl

theorem modelPublicKeyRoundTrip : PublicKeyRoundTrip modelBackend := by
  intro b pk hlen hok
  replace hok : modelPublicKeyFromSlice b = Except.ok pk := hok
  unfold modelPublicKeyFromSlice at hok
  split at hok
  · cases hok; rfl
  · split at hok
    · next h2 => exact absurd h2.1 (by omega)
    · cases hok

theorem modelSignatureRoundTrip : SignatureRoundTrip modelBackend := by
  intro b s hlen hok
  replace hok : (if b.length = 64 then Except.ok b
      else Except.error Secp256k1ErrorKind.InvalidSignature) = Except.ok s := hok
  rw [if_pos hlen] at hok
  cases hok
  rfl

theorem modelSecretKeyLenGuard : SecretKeyLenGuard modelBackend := by
  intro b hlen
  show (if b.length = 32 then Except.ok b
      else Except.error Secp256k1ErrorKind.InvalidSecretKey) = _
  rw [if_neg hlen]

theorem modelPublicKeyLenGuard : PublicKeyLenGuard modelBackend := by
  intro b h33 h65
  show modelPublicKeyFromSlice b = _
  unfold modelPublicKeyFromSlice
  rw [dif_neg (by intro h; exact h33 h.1), dif_neg (by intro h; exact h65 h.1)]

theorem modelSignatureLenGuard : SignatureLenGuard modelBackend := by
  intro b hlen
  show (if b.length = 64 then Except.ok b
      else Except.error Secp256k1ErrorKind.InvalidSignature) = _
  rw [if_neg hlen]

theorem modelSignVerifyOk : SignVerifyOk modelBackend := by
  intro sk m _
  show modelVerify m (modelSign m sk) (modelFromSecretKey sk) = Except.ok ()
  simp [modelVerify, modelSign, modelFromSecretKey, List.getD]

theorem modelPublicKeySerializeLen : PublicKeySerializeLen modelBackend := by
  intro pk
  exact pk.property.1

theorem modelKeypairBound : KeypairBound modelBackend := by
  intro r
  rfl

theorem modelAcceptsUncompressed : AcceptsUncompressed modelBackend := by
  refine ⟨uncompressedGenerator, ⟨2 :: genXBytes, by decide⟩, by decide, ?_⟩
  show modelPublicKeyFromSlice uncompressedGenerator = _
  rfl

/-!
### Claims
-/

/-- C1: for every private key K and every 32-byte digest M, the
signature S = K.sign_message(M) verifies both ways:
`K.pub_key().verify_signature(M, S)` returns Ok(()) and
`S.verify(M, K.pub_key())` returns Ok(()), given the backend's ECDSA
sign/verify correctness. -/
theorem sign_then_verify_succeeds (B : Secp256k1Backend) (hB : SignVerifyOk B)
    (k : Secp256k1PrivateKey B) (m : HashValue) :
    k.pub_key.verify_signature m (k.sign_message m) = Except.ok () ∧
    (k.sign_message m).verify m k.pub_key = Except.ok () := by
  have h := hB k.key (messageFrom m) m.len_eq
  constructor
  · show (match B.verify (messageFrom m) (B.sign (messageFrom m) k.key)
        (B.publicKeyFromSecretKey k.key) with
      | Except.error e => Except.error (CryptoError.fromSecp256k1 ⟨e⟩)
      | Except.ok _ => Except.ok ()) = Except.ok ()
    rw [h]
  · show (match B.verify (messageFrom m) (B.sign (messageFrom m) k.key)
        (B.publicKeyFromSecretKey k.key) with
      | Except.error e => Except.error (CryptoError.fromSecp256k1 ⟨e⟩)
      | Except.ok _ => Except.ok ()) = Except.ok ()
    rw [h]

/-- Witness for C1 at a concrete key and digest over the model backend. -/
theorem sign_then_verify_succeeds_witness :
    SignVerifyOk modelBackend ∧
    ((⟨List.replicate 32 1⟩ : Secp256k1PrivateKey modelBackend).pub_key.verify_signature
        ⟨List.replicate 32 7, by simp⟩
        ((⟨List.replicate 32 1⟩ : Secp256k1PrivateKey modelBackend).sign_message
          ⟨List.replicate 32 7, by simp⟩) = Except.ok () ∧
      ((⟨List.replicate 32 1⟩ : Secp256k1PrivateKey modelBackend).sign_message
          ⟨List.replicate 32 7, by simp⟩).verify ⟨List.replicate 32 7, by simp⟩
        (⟨List.replicate 32 1⟩ : Secp256k1PrivateKey modelBackend).pub_key = Except.ok ()) :=
  ⟨modelSignVerifyOk,
    sign_then_verify_succeeds modelBackend modelSignVerifyOk
      ⟨List.replicate 32 1⟩ ⟨List.replicate 32 7, by simp⟩⟩

/-- C2: every byte slice of the required fixed length (32 private key,
33 public key, 64 signature) that parses successfully via `TryFrom`
serializes back to exactly the input slice via `to_bytes`, given the
backend's canonical-encoding round-trip contracts. -/
theorem parse_toBytes_roundtrip (B : Secp256k1Backend)
    (h1 : SecretKeyRoundTrip B) (h2 : PublicKeyRoundTrip B) (h3 : SignatureRoundTrip B)
    (bk bp bs : List Nat)
    (k : Secp256k1PrivateKey B) (p : Secp256k1PublicKey B) (s : Secp256k1Signature B)
    (hbk : bk.length = 32) (hk : Secp256k1PrivateKey.try_from B bk = Except.ok k)
    (hbp : bp.length = 33) (hp : Secp256k1PublicKey.try_from B bp = Except.ok p)
    (hbs : bs.length = 64) (hs : Secp256k1Signature.try_from B bs = Except.ok s) :
    k.to_bytes = bk ∧ p.to_bytes = bp ∧ s.to_bytes = bs := by
  refine ⟨?_, ?_, ?_⟩
  · unfold Secp256k1PrivateKey.try_from at hk
    split at hk
    · cases hk
    · next sk heq =>
      cases hk
      exact h1 bk sk hbk heq
  · unfold Secp256k1PublicKey.try_from at hp
    split at hp
    · cases hp
    · next pk heq =>
      cases hp
      exact h2 bp pk hbp heq
  · unfold Secp256k1Signature.try_from at hs
    split at hs
    · cases hs
    · next sg heq =>
      cases hs
      exact h3 bs sg hbs heq

/-- Witness for C2 at concrete 32/33/64-byte slices over the model
backend. -/
theorem parse_toBytes_roundtrip_witness :
    SecretKeyRoundTrip modelBackend ∧ PublicKeyRoundTrip modelBackend ∧
    SignatureRoundTrip modelBackend ∧
    (List.replicate 32 1).length = 32 ∧
    Secp256k1PrivateKey.try_from modelBackend (List.replicate 32 1) =
      Except.ok ⟨List.replicate 32 1⟩ ∧
    (2 :: List.replicate 32 5).length = 33 ∧
    Secp256k1PublicKey.try_from modelBackend (2 :: List.replicate 32 5) =
      Except.ok ⟨⟨2 :: List.replicate 32 5, by simp⟩⟩ ∧
    (List.replicate 64 3).length = 64 ∧
    Secp256k1Signature.try_from modelBackend (List.replicate 64 3) =
      Except.ok ⟨List.replicate 64 3⟩ ∧
    ((⟨List.replicate 32 1⟩ : Secp256k1PrivateKey modelBackend).to_bytes =
        List.replicate 32 1 ∧
      (⟨⟨2 :: List.replicate 32 5, by simp⟩⟩ : Secp256k1PublicKey modelBackend).to_bytes =
        2 :: List.replicate 32 5 ∧
      (⟨List.replicate 64 3⟩ : Secp256k1Signature modelBackend).to_bytes =
        List.replicate 64 3) :=
  ⟨modelSecretKeyRoundTrip, modelPublicKeyRoundTrip, modelSignatureRoundTrip,
    by simp, by rfl, by simp, by rfl, by simp, by rfl,
    parse_toBytes_roundtrip modelBackend
      modelSecretKeyRoundTrip modelPublicKeyRoundTrip modelSignatureRoundTrip
      (List.replicate 32 1) (2 :: List.replicate 32 5) (List.replicate 64 3)
      ⟨List.replicate 32 1⟩ ⟨⟨2 :: List.replicate 32 5, by simp⟩⟩ ⟨List.replicate 64 3⟩
      (by simp) (by rfl) (by simp) (by rfl) (by simp) (by rfl)⟩

/-- C3: `Secp256k1Signature::verify` and
`Secp256k1PublicKey::verify_signature` return identical results on every
triple of digest, signature, and public key: both delegate to the same
`ENGINE.verify` call with the same error conversion. -/
theorem verify_verify_signature_agree (B : Secp256k1Backend)
    (m : HashValue) (s : Secp256k1Signature B) (p : Secp256k1PublicKey B) :
    s.verify m p = p.verify_signature m s := rfl

/-- C4 counterexample: the claim "any length other than the required
fixed length never yields a successfully constructed value" fails for
public keys: the 65-byte uncompressed SEC1 encoding of the secp256k1
generator point — an on-curve point, which the backend's
`PublicKey::from_slice` accepts — parses successfully even though the
declared public-key length is 33. -/
theorem length_guard_counterexample :
    uncompressedGenerator.length ≠ 33 ∧
    ∃ p : Secp256k1PublicKey modelBackend,
      Secp256k1PublicKey.try_from modelBackend uncompressedGenerator = Except.ok p :=
  ⟨by decide, ⟨⟨2 :: genXBytes, by decide⟩⟩, by rfl⟩

/-- C4 (amended): parsing a private key from a slice of length ≠ 32
fails with `InvalidPrivateKey`, a signature from a slice of length ≠ 64
fails with `InvalidSignature`, and a public key from a slice of length
neither 33 nor 65 fails with `InvalidPublicKey`; no such parse succeeds
or panics (the embedding is total).  A 65-byte uncompressed public-key
encoding may, however, parse successfully. -/
theorem length_guard_amended (B : Secp256k1Backend)
    (h1 : SecretKeyLenGuard B) (h2 : PublicKeyLenGuard B) (h3 : SignatureLenGuard B)
    (bk bp bs : List Nat)
    (hbk : bk.length ≠ 32) (hbp33 : bp.length ≠ 33) (hbp65 : bp.length ≠ 65)
    (hbs : bs.length ≠ 64) :
    Secp256k1PrivateKey.try_from B bk = Except.error CryptoError.InvalidPrivateKey ∧
    Secp256k1PublicKey.try_from B bp = Except.error CryptoError.InvalidPublicKey ∧
    Secp256k1Signature.try_from B bs = Except.error CryptoError.InvalidSignature := by
  refine ⟨?_, ?_, ?_⟩
  · unfold Secp256k1PrivateKey.try_from
    rw [h1 bk hbk]
    rfl
  · unfold Secp256k1PublicKey.try_from
    rw [h2 bp hbp33 hbp65]
    rfl
  · unfold Secp256k1Signature.try_from
    rw [h3 bs hbs]
    rfl

/-- Witness for C4 (amended) at concrete wrong-length slices over the
model backend. -/
theorem length_guard_amended_witness :
    SecretKeyLenGuard modelBackend ∧ PublicKeyLenGuard modelBackend ∧
    SignatureLenGuard modelBackend ∧
    ([0] : List Nat).length ≠ 32 ∧ ([0] : List Nat).length ≠ 33 ∧
    ([0] : List Nat).length ≠ 65 ∧ ([0] : List Nat).length ≠ 64 ∧
    (Secp256k1PrivateKey.try_from modelBackend [0] =
        Except.error CryptoError.InvalidPrivateKey ∧
      Secp256k1PublicKey.try_from modelBackend [0] =
        Except.error CryptoError.InvalidPublicKey ∧
      Secp256k1Signature.try_from modelBackend [0] =
        Except.error CryptoError.InvalidSignature) :=
  ⟨modelSecretKeyLenGuard, modelPublicKeyLenGuard, modelSignatureLenGuard,
    by simp, by simp, by simp, by simp,
    length_guard_amended modelBackend
      modelSecretKeyLenGuard modelPublicKeyLenGuard modelSignatureLenGuard
      [0] [0] [0] (by simp) (by simp) (by simp) (by simp)⟩

/-- C5 counterexample: the source maps the invalid-tweak and
out-of-memory backend variants to `Other("secp256k1: bad tweak")` and
`Other("secp256k1: not enough memory")`, not to the spec table's
`Other("bad tweak")` / `Other("not enough memory")`. -/
theorem error_table_counterexample :
    CryptoError.fromSecp256k1 ⟨Secp256k1ErrorKind.InvalidTweak⟩ ≠
      specErrorTable Secp256k1ErrorKind.InvalidTweak ∧
    CryptoError.fromSecp256k1 ⟨Secp256k1ErrorKind.NotEnoughMemory⟩ ≠
      specErrorTable Secp256k1ErrorKind.NotEnoughMemory := by
  constructor <;> decide

/-- C5 (amended): the backend-error-to-CryptoError conversion is a total
function over all eight backend variants and agrees with the spec's
table amended in the two `Other` rows: invalid-tweak maps to
`Other("secp256k1: bad tweak")` and out-of-memory to
`Other("secp256k1: not enough memory")`. -/
theorem error_table_amended (e : Secp256k1ErrorKind) :
    CryptoError.fromSecp256k1 ⟨e⟩ = specErrorTableAmended e := by
  cases e <;> rfl

/-- C6 counterexample: when both the private-key bytes and the message
bytes are malformed, `Crypto::sign_message` parses the private key
first, so a non-32-byte message does not yield `InvalidLength`: at
`msg = []`, `priv = []` the result is `InvalidPrivateKey`. -/
theorem crypto_sign_message_counterexample :
    ([] : List Nat).length ≠ 32 ∧
    Crypto.sign_message modelBackend [] [] = Except.error CryptoError.InvalidPrivateKey ∧
    CryptoError.InvalidPrivateKey ≠ CryptoError.InvalidLength :=
  ⟨by simp, by rfl, by decide⟩

/-- C6 (amended): `Crypto::sign_message` parses the private key first
and the message second, so a non-32-byte message yields `InvalidLength`
provided the private key parsed successfully; all three convenience
operations evaluate their parse steps in source order, short-circuit on
the first failure, and return that step's CryptoError unchanged. -/
theorem crypto_ops_short_circuit (B : Secp256k1Backend)
    (msgBad msgOk priv privBad sig sigBad pkBad : List Nat)
    (k : Secp256k1PrivateKey B) (s : Secp256k1Signature B)
    (e1 e2 e3 : CryptoError)
    (hmsgBad : msgBad.length ≠ 32) (hmsgOk : msgOk.length = 32)
    (hk : Secp256k1PrivateKey.try_from B priv = Except.ok k)
    (hprivBad : Secp256k1PrivateKey.try_from B privBad = Except.error e1)
    (hs : Secp256k1Signature.try_from B sig = Except.ok s)
    (hsigBad : Secp256k1Signature.try_from B sigBad = Except.error e2)
    (hpkBad : Secp256k1PublicKey.try_from B pkBad = Except.error e3) :
    Crypto.sign_message B msgBad priv = Except.error CryptoError.InvalidLength ∧
    Crypto.sign_message B msgBad privBad = Except.error e1 ∧
    Crypto.pub_key B privBad = Except.error e1 ∧
    Crypto.verify_signature B msgBad sigBad pkBad = Except.error CryptoError.InvalidLength ∧
    Crypto.verify_signature B msgOk sigBad pkBad = Except.error e2 ∧
    Crypto.verify_signature B msgOk sig pkBad = Except.error e3 := by
  refine ⟨?_, ?_, ?_, ?_, ?_, ?_⟩
  · unfold Crypto.sign_message
    rw [hk]
    unfold HashValue.tryFrom
    rw [dif_neg hmsgBad]
  · unfold Crypto.sign_message
    rw [hprivBad]
  · unfold Crypto.pub_key
    rw [hprivBad]
  · unfold Crypto.verify_signature
    unfold HashValue.tryFrom
    rw [dif_neg hmsgBad]
  · unfold Crypto.verify_signature
    unfold HashValue.tryFrom
    rw [dif_pos hmsgOk, hsigBad]
  · unfold Crypto.verify_signature
    unfold HashValue.tryFrom
    rw [dif_pos hmsgOk, hs, hpkBad]

/-- Witness for C6 (amended) at concrete inputs over the model backend. -/
theorem crypto_ops_short_circuit_witness :
    ([] : List Nat).length ≠ 32 ∧ (List.replicate 32 0).length = 32 ∧
    Secp256k1PrivateKey.try_from modelBackend (List.replicate 32 1) =
      Except.ok ⟨List.replicate 32 1⟩ ∧
    Secp256k1PrivateKey.try_from modelBackend [0] =
      Except.error CryptoError.InvalidPrivateKey ∧
    Secp256k1Signature.try_from modelBackend (List.replicate 64 3) =
      Except.ok ⟨List.replicate 64 3⟩ ∧
    Secp256k1Signature.try_from modelBackend [0] =
      Except.error CryptoError.InvalidSignature ∧
    Secp256k1PublicKey.try_from modelBackend [0] =
      Except.error CryptoError.InvalidPublicKey ∧
    (Crypto.sign_message modelBackend [] (List.replicate 32 1) =
        Except.error CryptoError.InvalidLength ∧
      Crypto.sign_message modelBackend [] [0] =
        Except.error CryptoError.InvalidPrivateKey ∧
      Crypto.pub_key modelBackend [0] =
        Except.error CryptoError.InvalidPrivateKey ∧
      Crypto.verify_signature modelBackend [] [0] [0] =
        Except.error CryptoError.InvalidLength ∧
      Crypto.verify_signature modelBackend (List.replicate 32 0) [0] [0] =
        Except.error CryptoError.InvalidSignature ∧
      Crypto.verify_signature modelBackend (List.replicate 32 0) (List.replicate 64 3) [0] =
        Except.error CryptoError.InvalidPublicKey) :=
  ⟨by simp, by simp, by rfl, by rfl, by rfl, by rfl, by rfl,
    crypto_ops_short_circuit modelBackend
      [] (List.replicate 32 0) (List.replicate 32 1) [0] (List.replicate 64 3) [0] [0]
      ⟨List.replicate 32 1⟩ ⟨List.replicate 64 3⟩
      CryptoError.InvalidPrivateKey CryptoError.InvalidSignature CryptoError.InvalidPublicKey
      (by simp) (by simp) (by rfl) (by rfl) (by rfl) (by rfl) (by rfl)⟩

/-- C7: the typed `sign_message` is total — it returns a `Signature`
with no error outcome (its Lean type carries no `Except`), so once the
private-key and message parses succeed, `Crypto::sign_message` always
returns Ok of the typed signing result. -/
theorem sign_message_total (B : Secp256k1Backend) (msg priv : List Nat)
    (k : Secp256k1PrivateKey B)
    (hk : Secp256k1PrivateKey.try_from B priv = Except.ok k)
    (hmsg : msg.length = 32) :
    Crypto.sign_message B msg priv = Except.ok (k.sign_message ⟨msg, hmsg⟩) := by
  unfold Crypto.sign_message
  rw [hk]
  unfold HashValue.tryFrom
  rw [dif_pos hmsg]

/-- Witness for C7 at a concrete key and message over the model backend. -/
theorem sign_message_total_witness :
    Secp256k1PrivateKey.try_from modelBackend (List.replicate 32 1) =
      Except.ok ⟨List.replicate 32 1⟩ ∧
    (List.replicate 32 7).length = 32 ∧
    Crypto.sign_message modelBackend (List.replicate 32 7) (List.replicate 32 1) =
      Except.ok ((⟨List.replicate 32 1⟩ : Secp256k1PrivateKey modelBackend).sign_message
        ⟨List.replicate 32 7, by simp⟩) :=
  ⟨by rfl, by simp,
    sign_message_total modelBackend (List.replicate 32 7) (List.replicate 32 1)
      ⟨List.replicate 32 1⟩ (by rfl) (by simp)⟩

/-- C8: `generate_keypair` returns a bound pair — the returned public
key serializes to the same bytes as the public key derived from the
returned private key, given the backend's keypair-binding contract. -/
theorem generate_keypair_bound (B : Secp256k1Backend) (hB : KeypairBound B) (r : B.Rng) :
    (generate_keypair B r).2.to_bytes = (generate_keypair B r).1.pub_key.to_bytes := by
  show B.publicKeySerialize (B.generateKeypair r).2 =
    B.publicKeySerialize (B.publicKeyFromSecretKey (B.generateKeypair r).1)
  rw [hB r]

/-- Witness for C8 at a concrete randomness draw over the model backend. -/
theorem generate_keypair_bound_witness :
    KeypairBound modelBackend ∧
    (generate_keypair modelBackend (5 : Nat)).2.to_bytes =
      (generate_keypair modelBackend (5 : Nat)).1.pub_key.to_bytes :=
  ⟨modelKeypairBound, generate_keypair_bound modelBackend modelKeypairBound (5 : Nat)⟩

/-- C9: there is a 65-byte (uncompressed-point) input on which
`Secp256k1PublicKey::try_from` succeeds even though the scheme's
declared public-key length is 33, and `to_bytes` on the parsed key
returns the 33-byte compressed encoding, not the original 65 input
bytes — given the backend's documented acceptance of uncompressed
encodings and its fixed 33-byte serialization. -/
theorem uncompressed_pubkey_accepted (B : Secp256k1Backend)
    (hAcc : AcceptsUncompressed B) (hLen : PublicKeySerializeLen B) :
    ∃ (b : List Nat) (p : Secp256k1PublicKey B),
      b.length = 65 ∧
      Secp256k1PublicKey.try_from B b = Except.ok p ∧
      p.to_bytes.length = 33 ∧ p.to_bytes ≠ b := by
  obtain ⟨b, pk, h65, hok⟩ := hAcc
  refine ⟨b, ⟨pk⟩, h65, ?_, hLen pk, ?_⟩
  · unfold Secp256k1PublicKey.try_from
    rw [hok]
  · intro h
    have hlen2 : (B.publicKeySerialize pk).length = b.length := congrArg List.length h
    rw [hLen pk, h65] at hlen2
    omega

/-- Witness for C9 over the model backend. -/
theorem uncompressed_pubkey_accepted_witness :
    AcceptsUncompressed modelBackend ∧ PublicKeySerializeLen modelBackend ∧
    ∃ (b : List Nat) (p : Secp256k1PublicKey modelBackend),
      b.length = 65 ∧
      Secp256k1PublicKey.try_from modelBackend b = Except.ok p ∧
      p.to_bytes.length = 33 ∧ p.to_bytes ≠ b :=
  ⟨modelAcceptsUncompressed, modelPublicKeySerializeLen,
    uncompressed_pubkey_accepted modelBackend
      modelAcceptsUncompressed modelPublicKeySerializeLen⟩

end Ophelia
